import Mathlib

/-!
Verification of the authentication and token-lifecycle core of the
moling-user-service repository (FastAPI + Redis + SQLAlchemy).

The Python services are shallowly embedded as pure Lean functions:
  * `Store` models the Redis adapter (`REDIS_CONN`): an association list of
    keyed entries, each with an optional absolute expiry instant.  `get`
    returns a value only while it is live, `set` replaces the entry and its
    TTL, `delete` removes it.  Time is modelled in whole seconds as `Nat`;
    all service code compares `datetime` values, which this granularity
    captures faithfully for the properties below.
  * `JWTService` (src/app/services/auth_mgmt/jwt_service.py): tokens are
    records of claims plus the signing secret; `jose.jwt.decode` succeeds
    exactly when the secret matches and the token is unexpired.  The
    blacklist store is keyed by the token itself (the Python code keys Redis
    by the prefixed raw token string; JWT encoding of a fixed secret is
    injective on claims, so the token record is an equivalent key).
  * `VerifyCodeService` (verify_code_service.py), `AuthService`
    (auth_service.py) and `OAuthService` (oauth_service.py) are translated
    line by line; nondeterministic inputs of the code (random verification
    codes, uuid4 ids, the SMS/email transport outcome, `secrets` state
    values) become explicit parameters.
  * bcrypt (`PasswordService.verify_password`) is an external library; it is
    modelled ideally: the stored hash is the reference secret and checking
    is equality, with `None`/malformed hashes rejected as in the code's
    `except` branch.
-/

namespace Moling

/-- One stored value of the key-value store together with the absolute
instant (in seconds) at which it expires; `none` means it never expires. -/
structure Entry (α : Type) where
  value : α
  expiresAt : Option Nat
  deriving Repr, DecidableEq

/-- The Redis adapter (`REDIS_CONN`, an async key-value store with set/get/
delete and per-key TTL) modelled as an association list of entries. -/
structure Store (κ α : Type) where
  entries : List (κ × Entry α)
  deriving Repr, DecidableEq

namespace Store

variable {κ α : Type} [DecidableEq κ]

/-- First entry with the given key, ignoring liveness. -/
def lookupEntry : List (κ × Entry α) → κ → Option (Entry α)
  | [], _ => none
  | p :: l, k => if p.1 = k then some p.2 else lookupEntry l k

/-- Drop every entry with the given key. -/
def eraseKey : List (κ × Entry α) → κ → List (κ × Entry α)
  | [], _ => []
  | p :: l, k => if p.1 = k then eraseKey l k else p :: eraseKey l k

/-- An entry's value while it is live at instant `now`. -/
def liveVal (now : Nat) (e : Entry α) : Option α :=
  match e.expiresAt with
  | none => some e.value
  | some t => if now < t then some e.value else none

/-- `REDIS_CONN.get`: the stored value, or `none` when absent or expired. -/
def get (s : Store κ α) (now : Nat) (k : κ) : Option α :=
  match lookupEntry s.entries k with
  | none => none
  | some e => liveVal now e

/-- `REDIS_CONN.set(key, value, expire=ttl)`: replace the entry, resetting
its TTL (`none` stores the value without an expiry, as a plain SET does). -/
def set (s : Store κ α) (now : Nat) (k : κ) (v : α) (ttl : Option Nat) : Store κ α :=
  ⟨(k, ⟨v, ttl.map fun d => now + d⟩) :: eraseKey s.entries k⟩

/-- `REDIS_CONN.delete(key)`. -/
def delete (s : Store κ α) (k : κ) : Store κ α :=
  ⟨eraseKey s.entries k⟩

/-- The empty store. -/
def empty : Store κ α := ⟨[]⟩

theorem lookupEntry_eraseKey_self (l : List (κ × Entry α)) (k : κ) :
    lookupEntry (eraseKey l k) k = none := by
  induction l with
  | nil => rfl
  | cons p l ih =>
    by_cases hk : p.1 = k
    · simpa [eraseKey, hk] using ih
    · simpa [eraseKey, lookupEntry, hk] using ih

theorem lookupEntry_eraseKey_ne (l : List (κ × Entry α)) (k k' : κ) (h : ¬ k' = k) :
    lookupEntry (eraseKey l k) k' = lookupEntry l k' := by
  induction l with
  | nil => rfl
  | cons p l ih =>
    by_cases hk : p.1 = k
    · have hk' : ¬ p.1 = k' := fun he => h (he.symm.trans hk)
      rw [eraseKey, if_pos hk, ih, lookupEntry, if_neg hk']
    · rw [eraseKey, if_neg hk, lookupEntry, lookupEntry]
      by_cases hk' : p.1 = k'
      · rw [if_pos hk', if_pos hk']
      · rw [if_neg hk', if_neg hk', ih]

@[simp] theorem get_set_self (s : Store κ α) (now t : Nat) (k : κ) (v : α) (ttl : Option Nat) :
    (s.set now k v ttl).get t k =
      (match ttl with
       | none => some v
       | some d => if t < now + d then some v else none) := by
  cases ttl <;> simp [get, set, lookupEntry, liveVal]

theorem get_set_ne (s : Store κ α) (now t : Nat) (k k' : κ) (v : α) (ttl : Option Nat)
    (h : ¬ k' = k) : (s.set now k v ttl).get t k' = s.get t k' := by
  have h' : ¬ k = k' := fun he => h he.symm
  rw [get, set]
  show (match (if k = k' then _ else lookupEntry (eraseKey s.entries k) k') with
        | none => none
        | some e => liveVal t e) = _
  rw [if_neg h', lookupEntry_eraseKey_ne _ _ _ h, get]

@[simp] theorem get_delete_self (s : Store κ α) (t : Nat) (k : κ) :
    (s.delete k).get t k = none := by
  simp [get, delete, lookupEntry_eraseKey_self]

theorem get_delete_ne (s : Store κ α) (t : Nat) (k k' : κ) (h : ¬ k' = k) :
    (s.delete k).get t k' = s.get t k' := by
  simp [get, delete, lookupEntry_eraseKey_ne _ _ _ h]

/-- Two successful reads of the same key return the same value: the stored
value does not depend on the reading instant, only liveness does. -/
theorem get_agree (s : Store κ α) (t₁ t₂ : Nat) (k : κ) (v₁ v₂ : α)
    (h₁ : s.get t₁ k = some v₁) (h₂ : s.get t₂ k = some v₂) : v₁ = v₂ := by
  unfold get at h₁ h₂
  cases he : lookupEntry s.entries k with
  | none => rw [he] at h₁; exact absurd h₁ (by simp)
  | some e =>
    rw [he] at h₁ h₂
    simp only [liveVal] at h₁ h₂
    cases hx : e.expiresAt with
    | none =>
      rw [hx] at h₁ h₂
      simp only [Option.some.injEq] at h₁ h₂
      rw [← h₁, ← h₂]
    | some d =>
      rw [hx] at h₁ h₂
      split at h₁ <;> split at h₂ <;> simp_all

end Store

/-- Recognized configuration (src/app/config/settings.py, JWT section);
the values of `defaultSettings` are the field defaults of `Settings`. -/
structure Settings where
  jwt_secret_key : String
  jwt_algorithm : String
  jwt_access_token_expire_minutes : Nat
  jwt_refresh_token_expire_days : Nat
  deriving Repr, DecidableEq

def defaultSettings : Settings :=
  { jwt_secret_key := "your-secret-key"
    jwt_algorithm := "HS256"
    jwt_access_token_expire_minutes := 30
    jwt_refresh_token_expire_days := 7 }

/-- The claim dictionary passed to token creation (`token_data` in
auth_service.py): subject and the profile claims embedded alongside it. -/
structure TokenData where
  sub : Option String
  username : Option String
  roles : List String
  email : Option String
  phone : Option String
  full_name : Option String
  language : Option String
  is_superuser : Bool
  is_active : Bool
  deriving Repr, DecidableEq

/-- A signed JWT: the claim dictionary after `jwt.encode` added the expiry
and the type discriminator, plus the secret it was signed with.  The raw
token string of the Python code is the deterministic encoding of exactly
these components, so the record stands for the string. -/
structure Token where
  data : TokenData
  typ : String
  exp : Nat
  secret : String
  deriving Repr, DecidableEq

/-- The value stored under a blacklisted token
(jwt_service.py `add_to_blacklist`): bookkeeping timestamps. -/
structure BlacklistEntry where
  addedAt : Nat
  expiresAt : Nat
  deriving Repr, DecidableEq

/-- The token-blacklist region of Redis.  The Python code keys it by
`TOKEN_BLACKLIST_PREFIX` + the raw token string; the prefix only namespaces
the region and the raw string determines the token record, so the store is
keyed by the token itself. -/
abbrev BlacklistStore := Store Token BlacklistEntry

namespace JWTService

/-- `JWTService.create_access_token` (jwt_service.py lines 23-34).  A passed
`expires_delta` of 0 is falsy in Python, so it falls back to the default. -/
def create_access_token (cfg : Settings) (data : TokenData) (now : Nat)
    (expires_delta : Option Nat) : Token :=
  let exp :=
    match expires_delta with
    | some d => if d = 0 then now + cfg.jwt_access_token_expire_minutes * 60 else now + d
    | none => now + cfg.jwt_access_token_expire_minutes * 60
  { data := data, typ := "access", exp := exp, secret := cfg.jwt_secret_key }

/-- `JWTService.create_refresh_token` (jwt_service.py lines 36-44). -/
def create_refresh_token (cfg : Settings) (data : TokenData) (now : Nat) : Token :=
  { data := data, typ := "refresh"
    exp := now + cfg.jwt_refresh_token_expire_days * 86400
    secret := cfg.jwt_secret_key }

/-- `jose.jwt.decode(token, key, algorithms)`: succeeds and returns the
claims exactly when the signature checks out (the token was produced with
the same secret) and the `exp` claim has not passed; any failure raises
`JWTError`, modelled as `none`. -/
def jwt_decode (token : Token) (key : String) (now : Nat) : Option Token :=
  if token.secret = key ∧ now ≤ token.exp then some token else none

/-- `JWTService.is_blacklisted` (jwt_service.py lines 130-155): a pure
existence check of the token's blacklist key. -/
def is_blacklisted (bl : BlacklistStore) (now : Nat) (token : Token) : Bool :=
  (bl.get now token).isSome

/-- `JWTService.verify_token` (jwt_service.py lines 46-61): blacklist check
first, then signature/expiry via decode, then the `sub` claim must be
present; every failure yields `None`. -/
def verify_token (cfg : Settings) (bl : BlacklistStore) (now : Nat) (token : Token) :
    Option Token :=
  if is_blacklisted bl now token then none
  else
    match jwt_decode token cfg.jwt_secret_key now with
    | none => none
    | some payload =>
      match payload.data.sub with
      | none => none
      | some _ => some payload

/-- `JWTService.add_to_blacklist` (jwt_service.py lines 82-128): default
expiry is now plus the configured access-token TTL; an expiry not in the
future is refused; otherwise the entry is stored with TTL the seconds
remaining until the expiry. -/
def add_to_blacklist (cfg : Settings) (bl : BlacklistStore) (now : Nat) (token : Token)
    (expires_at : Option Nat) : Bool × BlacklistStore :=
  let expiresAt := expires_at.getD (now + cfg.jwt_access_token_expire_minutes * 60)
  if expiresAt ≤ now then (false, bl)
  else (true, bl.set now token ⟨now, expiresAt⟩ (some (expiresAt - now)))

end JWTService

/-- The Principal record (src/app/models/user.py, `User`), restricted to the
columns the authentication core reads.  `hashed_password` stores, under the
ideal-bcrypt model, the reference secret; `none` is a NULL column (pure
federated account). -/
structure User where
  id : String
  user_name : String
  user_full_name : Option String
  email : Option String
  phone : Option String
  hashed_password : Option String
  is_active : Bool
  is_superuser : Bool
  language : Option String
  deriving Repr, DecidableEq

namespace PasswordService

/-- `PasswordService.verify_password` (password_service.py lines 97-112):
bcrypt checking modelled ideally as equality against the reference secret
the hash commits to; a `None` or malformed hash raises inside the `try` and
yields `False`. -/
def verify_password (password : String) (hashed_password : Option String) : Bool :=
  match hashed_password with
  | none => false
  | some h => password = h

end PasswordService

/-- `PasswordLogin` (src/app/schemes/auth.py lines 8-13): three optional
identifiers plus the password. -/
structure PasswordLogin where
  user_name : Option String
  email : Option String
  phone : Option String
  password : String
  deriving Repr, DecidableEq

/-- Python truthiness of an optional string field: `None` and the empty
string are falsy. -/
def truthy : Option String → Bool
  | none => false
  | some s => !(s = "")

namespace AuthService

/-- The `token_data` dictionary built by `create_login_response` and
`refresh_token` (auth_service.py lines 179-189 and 256-266). -/
def mkTokenData (u : User) (roleNames : List String) : TokenData :=
  { sub := some u.id, username := some u.user_name, roles := roleNames
    email := u.email, phone := u.phone, full_name := u.user_full_name
    language := u.language, is_superuser := u.is_superuser, is_active := u.is_active }

/-- `LoginResponse` (schemes/auth.py): the user projection is represented by
the principal record itself. -/
structure LoginResponse where
  success : Bool
  access_token : Token
  refresh_token : Token
  user : User
  deriving Repr, DecidableEq

/-- `RefreshTokenResponse` (schemes/auth.py). -/
structure RefreshTokenResponse where
  success : Bool
  access_token : Token
  refresh_token : Token
  deriving Repr, DecidableEq

/-- `AuthService.create_login_response` (auth_service.py lines 162-223):
fetches the principal's role names (passed here as the `roles` lookup on the
user id), builds the claims and mints the access+refresh pair.  The
last-login bookkeeping mutates only audit columns and is dropped. -/
def create_login_response (cfg : Settings) (roles : String → List String) (now : Nat)
    (u : User) : LoginResponse :=
  let td := mkTokenData u (roles u.id)
  { success := true
    access_token := JWTService.create_access_token cfg td now none
    refresh_token := JWTService.create_refresh_token cfg td now
    user := u }

/-- `AuthService._authenticate_user_by_name` (auth_service.py lines 97-109). -/
def authenticate_user_by_name (db : List User) (username password : String) : Option User :=
  match db.find? fun u => u.user_name = username with
  | none => none
  | some u => if PasswordService.verify_password password u.hashed_password then some u else none

/-- `AuthService._authenticate_user_by_email` (auth_service.py lines 111-123). -/
def authenticate_user_by_email (db : List User) (email password : String) : Option User :=
  match db.find? fun u => u.email = some email with
  | none => none
  | some u => if PasswordService.verify_password password u.hashed_password then some u else none

/-- `AuthService._authenticate_user_by_phone` (auth_service.py lines 125-137). -/
def authenticate_user_by_phone (db : List User) (phone password : String) : Option User :=
  match db.find? fun u => u.phone = some phone with
  | none => none
  | some u => if PasswordService.verify_password password u.hashed_password then some u else none

/-- Shared tail of `login_with_password` (auth_service.py lines 41-53): no
principal or wrong password is a 401, an inactive principal is a 401,
otherwise the unified login response. -/
def loginOutcome (cfg : Settings) (roles : String → List String) (now : Nat) :
    Option User → Except Nat LoginResponse
  | none => .error 401
  | some u =>
    if u.is_active then .ok (create_login_response cfg roles now u) else .error 401

/-- `AuthService.login_with_password` (auth_service.py lines 23-53): the
`if / elif / elif / else` chain over the truthiness of the three identifier
fields; only when all three are falsy is the 400 client error raised.
Errors carry the HTTP status code. -/
def login_with_password (cfg : Settings) (db : List User) (roles : String → List String)
    (now : Nat) (auth : PasswordLogin) : Except Nat LoginResponse :=
  if truthy auth.user_name then
    loginOutcome cfg roles now
      (authenticate_user_by_name db (auth.user_name.getD "") auth.password)
  else if truthy auth.email then
    loginOutcome cfg roles now
      (authenticate_user_by_email db (auth.email.getD "") auth.password)
  else if truthy auth.phone then
    loginOutcome cfg roles now
      (authenticate_user_by_phone db (auth.phone.getD "") auth.password)
  else
    .error 400

/-- `AuthService.refresh_token` (auth_service.py lines 225-283): verify the
presented token, read its `sub`, look the principal up, reject missing or
inactive principals with 401 (a `None` payload raises inside the `try` and
is mapped to the same 401), then mint a fresh pair from the re-derived
claims. -/
def refresh_token (cfg : Settings) (db : List User) (roles : String → List String)
    (bl : BlacklistStore) (now : Nat) (tok : Token) : Except Nat RefreshTokenResponse :=
  match JWTService.verify_token cfg bl now tok with
  | none => .error 401
  | some payload =>
    match payload.data.sub with
    | none => .error 401
    | some uid =>
      match db.find? fun u => u.id = uid with
      | none => .error 401
      | some u =>
        if u.is_active then
          let td := mkTokenData u (roles u.id)
          .ok { success := true
                access_token := JWTService.create_access_token cfg td now none
                refresh_token := JWTService.create_refresh_token cfg td now }
        else .error 401

end AuthService

/-- Modelled from the spec: the module `app/constants/common.py` imported by
verify_code_service.py is not among the sources.  The spec fixes the shape
(fixed-length numeric code, TTL in minutes plus a 5-minute store buffer, a
maximum attempt count) and its scenario assumes max attempts = 5; the code
length 6 and expiry 5 minutes match the recognized-configuration defaults in
src/app/config/settings.py. -/
structure VcConfig where
  codeLength : Nat
  expireMinutes : Nat
  maxAttempts : Nat
  deriving Repr, DecidableEq

/-- Modelled from the spec: the default constant values (see `VcConfig`). -/
def defaultVcConfig : VcConfig :=
  { codeLength := 6, expireMinutes := 5, maxAttempts := 5 }

/-- The verification-code record stored in Redis
(verify_code_service.py `_create_verification_data`, lines 48-62). -/
structure VerificationData where
  id : String
  identifier : String
  code : String
  code_type : String
  purpose : String
  created_at : Nat
  expires_at : Nat
  ip_address : Option String
  user_agent : Option String
  attempts : Nat
  is_used : Bool
  is_expired : Bool
  deriving Repr, DecidableEq

/-- Key of a stored code: the components of the Redis key
`verification:identifier:code_type:purpose`. -/
abbrev VKey := String × String × String

/-- Key of a rate counter: the components of the Redis key
`rate_limit:identifier:code_type:window` with window `1min` or `1hour`. -/
abbrev RKey := String × String × String

/-- The two Redis regions the verification-code service touches: the pending
code records and the rate-limit counters. -/
structure VcState where
  codes : Store VKey VerificationData
  rate : Store RKey Nat
  deriving Repr, DecidableEq

/-- The empty verification-code state. -/
def VcState.empty : VcState := ⟨Store.empty, Store.empty⟩

namespace VerifyCodeService

/-- `VerifyCodeService.verify_code` (verify_code_service.py lines 192-241):
fetch; absent, already used or past logical expiry fail without writing;
otherwise the attempt counter is incremented and written back (the in-code
writebacks use a plain SET without a TTL), the limit voids the record, and
only an exact code match marks it used and returns true. -/
def verify_code (cfg : VcConfig) (st : VcState) (now : Nat)
    (identifier code code_type purpose : String) : Bool × VcState :=
  let key : VKey := (identifier, code_type, purpose)
  match st.codes.get now key with
  | none => (false, st)
  | some vd =>
    if vd.is_used then (false, st)
    else if vd.expires_at < now then (false, st)
    else
      let attempts := vd.attempts + 1
      let vd1 := { vd with attempts := attempts }
      if cfg.maxAttempts < attempts then
        (false, { st with codes := st.codes.set now key { vd1 with is_expired := true } none })
      else if vd1.code = code then
        (true, { st with codes := st.codes.set now key { vd1 with is_used := true } none })
      else
        (false, { st with codes := st.codes.set now key vd1 none })

/-- `VerifyCodeService._check_rate_limit` (verify_code_service.py lines
243-270): reject when the 60-second counter is at least 1 or the 1-hour
counter is at least 10; otherwise set the 60-second counter to 1 and bump
the 1-hour counter, each with its window as TTL. -/
def check_rate_limit (st : VcState) (now : Nat) (identifier code_type : String) :
    Bool × VcState :=
  let minKey : RKey := (identifier, code_type, "1min")
  let one_minute_count := (st.rate.get now minKey).getD 0
  if 1 ≤ one_minute_count then (false, st)
  else
    let hourKey : RKey := (identifier, code_type, "1hour")
    let one_hour_count := (st.rate.get now hourKey).getD 0
    if 10 ≤ one_hour_count then (false, st)
    else
      (true, { st with
        rate := (st.rate.set now minKey 1 (some 60)).set now hourKey
          (one_hour_count + 1) (some 3600) })

/-- `VerifyCodeService._invalidate_previous_codes` (verify_code_service.py
lines 78-89): a plain delete of the key. -/
def invalidate_previous_codes (st : VcState) (identifier code_type purpose : String) :
    VcState :=
  { st with codes := st.codes.delete (identifier, code_type, purpose) }

/-- `VerifyCodeService._create_verification_data` (verify_code_service.py
lines 33-76): invalidate the previous code for the key, then store the fresh
record with store TTL the logical expiry plus a 300-second buffer.  The
generated code and uuid are passed in explicitly. -/
def create_verification_data (cfg : VcConfig) (st : VcState) (now : Nat)
    (identifier code code_type purpose vid : String) (ip ua : Option String) :
    VerificationData × VcState :=
  let st1 := invalidate_previous_codes st identifier code_type purpose
  let vd : VerificationData :=
    { id := vid, identifier := identifier, code := code, code_type := code_type
      purpose := purpose, created_at := now
      expires_at := now + cfg.expireMinutes * 60
      ip_address := ip, user_agent := ua
      attempts := 0, is_used := false, is_expired := false }
  (vd, { st1 with
    codes := st1.codes.set now (identifier, code_type, purpose) vd
      (some (cfg.expireMinutes * 60 + 300)) })

/-- `VerifyCodeService.send_sms_verification_code` (verify_code_service.py
lines 91-139): rate-limit check, create the record, dispatch through the SMS
transport (its outcome is the parameter `smsOk`); on transport failure the
just-created record is deleted and failure is reported. -/
def send_sms_verification_code (cfg : VcConfig) (st : VcState) (now : Nat)
    (phone purpose code vid : String) (ip ua : Option String) (smsOk : Bool) :
    Bool × VcState :=
  match check_rate_limit st now phone "sms" with
  | (false, st1) => (false, st1)
  | (true, st1) =>
    let c := create_verification_data cfg st1 now phone code "sms" purpose vid ip ua
    if smsOk then (true, c.2)
    else (false, { c.2 with codes := c.2.codes.delete (phone, "sms", purpose) })

/-- A chain of `verify_code` calls, each at its instant with its presented
code, threading the state; `true` when every call in the chain failed. -/
def verifyAll (cfg : VcConfig) (st : VcState) (identifier code_type purpose : String) :
    List (Nat × String) → Bool
  | [] => true
  | (t, c) :: rest =>
    let r := verify_code cfg st t identifier c code_type purpose
    !r.1 && verifyAll cfg r.2 identifier code_type purpose rest

/-- A chain of SMS sends, each at its instant with its generated code and
uuid, threading the state and collecting each send's outcome (the transport
always succeeds). -/
def sendResults (cfg : VcConfig) (st : VcState) (phone purpose : String) :
    List (Nat × String × String) → List Bool
  | [] => []
  | (t, c, vid) :: rest =>
    let r := send_sms_verification_code cfg st t phone purpose c vid none none true
    r.1 :: sendResults cfg r.2 phone purpose rest

end VerifyCodeService

/-- The value stored under an OAuth state parameter
(oauth_service.py `generate_state_parameter`, lines 126-129). -/
structure StateData where
  created_at : Nat
  used : Bool
  deriving Repr, DecidableEq

/-- The `oauth_state:` region of Redis, keyed by the random state value. -/
abbrev StateStore := Store String StateData

namespace OAuthService

/-- `OAuthService.generate_state_parameter` (oauth_service.py lines
121-132): store the freshly generated random value (passed in explicitly)
with `used = false` and a 300-second TTL. -/
def generate_state_parameter (s : StateStore) (now : Nat) (state : String) : StateStore :=
  s.set now state { created_at := now, used := false } (some 300)

/-- `OAuthService._get_and_consume_state` (oauth_service.py lines 134-149):
a Redis GET, the fail-closed checks, then a separate Redis DELETE. -/
def get_and_consume_state (s : StateStore) (now : Nat) (state : String) :
    Bool × StateStore :=
  match s.get now state with
  | none => (false, s)
  | some d =>
    if d.used then (false, s)
    else (true, s.delete state)

/-- The first store operation of `_get_and_consume_state`: the GET of the
state key (oauth_service.py line 138). -/
def consumeStateRead (s : StateStore) (now : Nat) (state : String) : Option StateData :=
  s.get now state

/-- The rest of `_get_and_consume_state` after its GET returned `r`: the
checks and the separate DELETE (oauth_service.py lines 140-149). -/
def consumeStateFinish (s : StateStore) (state : String) (r : Option StateData) :
    Bool × StateStore :=
  match r with
  | none => (false, s)
  | some d =>
    if d.used then (false, s)
    else (true, s.delete state)

/-- A chain of consume calls on the same state value, threading the store;
`true` when every call returned false. -/
def consumeAll (s : StateStore) (state : String) : List Nat → Bool
  | [] => true
  | t :: ts =>
    let r := get_and_consume_state s t state
    !r.1 && consumeAll r.2 state ts

end OAuthService

/-! Concrete fixtures used by witnesses and counterexamples. -/

/-- A representative validly-signed access token for subject `u1`. -/
def tok0 : Token :=
  { data := { sub := some "u1", username := some "alice", roles := []
              email := none, phone := none, full_name := none, language := none
              is_superuser := false, is_active := true }
    typ := "access", exp := 1800, secret := "your-secret-key" }

/-- A representative active principal whose reference password is `pw`. -/
def alice : User :=
  { id := "u1", user_name := "alice", user_full_name := none
    email := some "alice@example.com", phone := none
    hashed_password := some "pw", is_active := true, is_superuser := false
    language := none }

/-- A one-principal database. -/
def db0 : List User := [alice]

/-- Role lookup assigning no roles. -/
def roles0 : String → List String := fun _ => []

/-- A store holding one freshly generated state parameter, for the
consume-state race. -/
def raceStore : StateStore :=
  OAuthService.generate_state_parameter Store.empty 0 "state-a"

/-! Theorems for the claims. -/

/-- C1: `verify_token` checks blacklist membership before signature/claim
inspection and returns invalid (`none`) whenever the token is blacklisted;
and for a validly-signed, unexpired token, after a successful
`add_to_blacklist` the verification performed then returns invalid rather
than the decoded claims. -/
theorem claim_C1_blacklist_rejected (cfg : Settings) (bl : BlacklistStore) (now : Nat)
    (tok : Token) :
    (JWTService.is_blacklisted bl now tok = true →
      JWTService.verify_token cfg bl now tok = none) ∧
    (∀ e : Option Nat, tok.secret = cfg.jwt_secret_key → now ≤ tok.exp →
      (JWTService.add_to_blacklist cfg bl now tok e).1 = true →
      JWTService.verify_token cfg (JWTService.add_to_blacklist cfg bl now tok e).2 now tok
        = none) := by
  constructor
  · intro hb
    simp [JWTService.verify_token, hb]
  · intro e _ _ hadd
    simp only [JWTService.add_to_blacklist] at hadd ⊢
    by_cases hle : e.getD (now + cfg.jwt_access_token_expire_minutes * 60) ≤ now
    · rw [if_pos hle] at hadd
      exact absurd hadd (by simp)
    · rw [if_neg hle] at hadd ⊢
      have hb : JWTService.is_blacklisted
          (bl.set now tok ⟨now, e.getD (now + cfg.jwt_access_token_expire_minutes * 60)⟩
            (some (e.getD (now + cfg.jwt_access_token_expire_minutes * 60) - now))) now tok
          = true := by
        unfold JWTService.is_blacklisted
        rw [Store.get_set_self]
        have hlt : now < now + (e.getD (now + cfg.jwt_access_token_expire_minutes * 60) - now) := by
          omega
        simp [hlt]
      simp [JWTService.verify_token, hb]

/-- C1 witness: blacklisting a concrete valid token at its issue instant
makes verification reject it. -/
theorem claim_C1_blacklist_rejected_witness :
    JWTService.verify_token defaultSettings
      (JWTService.add_to_blacklist defaultSettings Store.empty 0 tok0 none).2 0 tok0 = none :=
  (claim_C1_blacklist_rejected defaultSettings Store.empty 0 tok0).2 none rfl
    (by decide) (by decide)

/-- C9: `add_to_blacklist` with the expiry omitted uses now plus the
configured access-token TTL; an expiry not after the current instant is
refused without storing anything; otherwise the entry is stored with store
TTL the (whole-second model) time remaining until the expiry. -/
theorem claim_C9_blacklist_ttl (cfg : Settings) (bl : BlacklistStore) (now : Nat)
    (tok : Token) (e : Option Nat) :
    (e = none →
      JWTService.add_to_blacklist cfg bl now tok e =
        JWTService.add_to_blacklist cfg bl now tok
          (some (now + cfg.jwt_access_token_expire_minutes * 60))) ∧
    (e.getD (now + cfg.jwt_access_token_expire_minutes * 60) ≤ now →
      JWTService.add_to_blacklist cfg bl now tok e = (false, bl)) ∧
    (now < e.getD (now + cfg.jwt_access_token_expire_minutes * 60) →
      JWTService.add_to_blacklist cfg bl now tok e =
        (true, bl.set now tok
          ⟨now, e.getD (now + cfg.jwt_access_token_expire_minutes * 60)⟩
          (some (e.getD (now + cfg.jwt_access_token_expire_minutes * 60) - now)))) := by
  refine ⟨fun he => by subst he; rfl, fun hle => ?_, fun hlt => ?_⟩
  · simp only [JWTService.add_to_blacklist]
    rw [if_pos hle]
  · simp only [JWTService.add_to_blacklist]
    rw [if_neg (by omega)]

/-- C9 witness: at a concrete expired instant the blacklist refuses, and at
a concrete future expiry it stores with the remaining seconds as TTL. -/
theorem claim_C9_blacklist_ttl_witness :
    JWTService.add_to_blacklist defaultSettings Store.empty 5 tok0 (some 5)
      = (false, Store.empty) ∧
    JWTService.add_to_blacklist defaultSettings Store.empty 5 tok0 (some 65)
      = (true, Store.empty.set 5 tok0 ⟨5, 65⟩ (some 60)) :=
  ⟨(claim_C9_blacklist_ttl defaultSettings Store.empty 5 tok0 (some 5)).2.1 (by decide),
   (claim_C9_blacklist_ttl defaultSettings Store.empty 5 tok0 (some 65)).2.2 (by decide)⟩

/-- C5: neither `verify_token` nor `refresh_token` inspects the token's type
discriminator: the token below is quantified with an arbitrary `typ` (in
particular `"access"`), and once validly signed, unexpired, non-blacklisted
and carrying a subject of an active principal, verification returns its
claims and the refresh operation mints a fresh access+refresh pair for that
subject. -/
theorem claim_C5_refresh_ignores_token_type (cfg : Settings) (db : List User)
    (roles : String → List String) (bl : BlacklistStore) (now : Nat) (tok : Token)
    (uid : String) (u : User)
    (hsig : tok.secret = cfg.jwt_secret_key) (hexp : now ≤ tok.exp)
    (hbl : JWTService.is_blacklisted bl now tok = false)
    (hsub : tok.data.sub = some uid)
    (hu : db.find? (fun w => w.id = uid) = some u)
    (hact : u.is_active = true) :
    JWTService.verify_token cfg bl now tok = some tok ∧
    AuthService.refresh_token cfg db roles bl now tok =
      .ok { success := true
            access_token := JWTService.create_access_token cfg
              (AuthService.mkTokenData u (roles u.id)) now none
            refresh_token := JWTService.create_refresh_token cfg
              (AuthService.mkTokenData u (roles u.id)) now } ∧
    (JWTService.create_access_token cfg (AuthService.mkTokenData u (roles u.id)) now
        none).data.sub = some u.id ∧
    (JWTService.create_access_token cfg (AuthService.mkTokenData u (roles u.id)) now
        none).typ = "access" ∧
    (JWTService.create_refresh_token cfg (AuthService.mkTokenData u (roles u.id)) now).typ
      = "refresh" := by
  have hv : JWTService.verify_token cfg bl now tok = some tok := by
    simp [JWTService.verify_token, hbl, JWTService.jwt_decode, hsig, hexp, hsub]
  refine ⟨hv, ?_, rfl, rfl, rfl⟩
  simp [AuthService.refresh_token, hv, hsub, hu, hact]

/-- C5 witness: a concrete token of type `"access"` is accepted by the
refresh operation. -/
theorem claim_C5_refresh_ignores_token_type_witness :
    tok0.typ = "access" ∧
    (AuthService.refresh_token defaultSettings db0 roles0 Store.empty 0 tok0).isOk = true := by
  have h := (claim_C5_refresh_ignores_token_type defaultSettings db0 roles0 Store.empty 0
    tok0 "u1" alice rfl (by decide) rfl rfl (by decide) rfl).2.1
  rw [h]
  exact ⟨rfl, rfl⟩

/-- Consume calls on a state key that is absent at every instant all fail
and leave the store unchanged. -/
theorem consumeAll_of_gone (s : StateStore) (state : String)
    (h : ∀ t, s.get t state = none) :
    ∀ ts : List Nat, OAuthService.consumeAll s state ts = true := by
  intro ts
  induction ts with
  | nil => rfl
  | cons t ts ih =>
    have hc : OAuthService.get_and_consume_state s t state = (false, s) := by
      simp [OAuthService.get_and_consume_state, h t]
    unfold OAuthService.consumeAll
    rw [hc]
    simpa using ih

/-- C3: a generated state parameter is consumed successfully on the first
`consume_state` call within its 300-second TTL, every later call with the
same value fails, and consuming an absent or expired state fails closed. -/
theorem claim_C3_state_consumed_once (s : StateStore) (now : Nat) (state : String) :
    (∀ t₂, t₂ < now + 300 →
      (OAuthService.get_and_consume_state
        (OAuthService.generate_state_parameter s now state) t₂ state).1 = true ∧
      ∀ ts : List Nat,
        OAuthService.consumeAll
          (OAuthService.get_and_consume_state
            (OAuthService.generate_state_parameter s now state) t₂ state).2 state ts = true) ∧
    (∀ t₂, now + 300 ≤ t₂ →
      (OAuthService.get_and_consume_state
        (OAuthService.generate_state_parameter s now state) t₂ state).1 = false) ∧
    (∀ (s' : StateStore) (t : Nat), s'.get t state = none →
      OAuthService.get_and_consume_state s' t state = (false, s')) := by
  have hget : ∀ t₂, (OAuthService.generate_state_parameter s now state).get t₂ state =
      if t₂ < now + 300 then some ⟨now, false⟩ else none := by
    intro t₂
    unfold OAuthService.generate_state_parameter
    rw [Store.get_set_self]
  refine ⟨fun t₂ h₂ => ?_, fun t₂ h₂ => ?_, fun s' t h => ?_⟩
  · have hs : (OAuthService.generate_state_parameter s now state).get t₂ state
        = some ⟨now, false⟩ := by rw [hget, if_pos h₂]
    have hc : OAuthService.get_and_consume_state
        (OAuthService.generate_state_parameter s now state) t₂ state =
        (true, (OAuthService.generate_state_parameter s now state).delete state) := by
      simp [OAuthService.get_and_consume_state, hs]
    refine ⟨by rw [hc], fun ts => ?_⟩
    rw [hc]
    exact consumeAll_of_gone _ _ (fun t => Store.get_delete_self _ _ _) ts
  · have hs : (OAuthService.generate_state_parameter s now state).get t₂ state = none := by
      rw [hget, if_neg (by omega)]
    simp [OAuthService.get_and_consume_state, hs]
  · simp [OAuthService.get_and_consume_state, h]

/-- C3 witness: for a concrete store and instants, the first consume
succeeds, the second fails, and an expired consume fails. -/
theorem claim_C3_state_consumed_once_witness :
    (OAuthService.get_and_consume_state raceStore 10 "state-a").1 = true ∧
    OAuthService.consumeAll
      (OAuthService.get_and_consume_state raceStore 10 "state-a").2 "state-a" [20, 30] = true ∧
    (OAuthService.get_and_consume_state raceStore 300 "state-a").1 = false := by
  have h := claim_C3_state_consumed_once Store.empty 0 "state-a"
  exact ⟨(h.1 10 (by decide)).1, (h.1 10 (by decide)).2 [20, 30],
    h.2.1 300 (by decide)⟩

/-- C10: the code performs state consumption as a Redis GET followed by a
separate DELETE, not as one atomic operation — `_get_and_consume_state`
decomposes exactly into its read and its finish — and under the interleaving
in which both calls' GETs precede either DELETE, two consume calls for the
same freshly generated state value both return true, refuting the claimed
impossibility. -/
theorem claim_C10_consume_state_not_atomic :
    (∀ (s : StateStore) (now : Nat) (state : String),
      OAuthService.get_and_consume_state s now state =
        OAuthService.consumeStateFinish s state (OAuthService.consumeStateRead s now state)) ∧
    (OAuthService.consumeStateFinish raceStore "state-a"
      (OAuthService.consumeStateRead raceStore 0 "state-a")).1 = true ∧
    (OAuthService.consumeStateFinish
      (OAuthService.consumeStateFinish raceStore "state-a"
        (OAuthService.consumeStateRead raceStore 0 "state-a")).2 "state-a"
      (OAuthService.consumeStateRead raceStore 0 "state-a")).1 = true :=
  ⟨fun _ _ _ => rfl, by decide, by decide⟩

/-- A pending verification record for the scenario fixtures: stored code
`246813`, no attempts yet, logical expiry at 300 s. -/
def fixtureVd (identifier code_type code : String) : VerificationData :=
  { id := "v1", identifier := identifier, code := code, code_type := code_type
    purpose := "verification", created_at := 0, expires_at := 300
    ip_address := none, user_agent := none
    attempts := 0, is_used := false, is_expired := false }

/-- State holding one pending SMS code `246813` for the C4 scenario. -/
def fiveWrongState : VcState :=
  { codes := Store.empty.set 0 ("13800138000", "sms", "verification")
      (fixtureVd "13800138000" "sms" "246813") (some 600)
    rate := Store.empty }

/-- State holding one pending email code `123456` for the C2 witness. -/
def c2State : VcState :=
  { codes := Store.empty.set 0 ("alice@example.com", "email", "verification")
      (fixtureVd "alice@example.com" "email" "123456") (some 600)
    rate := Store.empty }

/-- State holding one pending SMS code `111111` for the C8 witness. -/
def c8State : VcState :=
  { codes := Store.empty.set 0 ("13800138000", "sms", "verification")
      (fixtureVd "13800138000" "sms" "111111") (some 600)
    rate := Store.empty }

/-- A `verify_code` call that finds a used record rejects without writing. -/
theorem verify_code_used_rejects (cfg : VcConfig) (st : VcState) (t : Nat)
    (identifier code code_type purpose : String) (vd : VerificationData)
    (hget : st.codes.get t (identifier, code_type, purpose) = some vd)
    (hu : vd.is_used = true) :
    VerifyCodeService.verify_code cfg st t identifier code code_type purpose = (false, st) := by
  simp [VerifyCodeService.verify_code, hget, hu]

/-- After a record is used at every instant, every chain of further
`verify_code` calls for the key fails. -/
theorem verifyAll_of_used (cfg : VcConfig) (st : VcState)
    (identifier code_type purpose : String)
    (h : ∀ t, ∃ vd, st.codes.get t (identifier, code_type, purpose) = some vd ∧
      vd.is_used = true) :
    ∀ calls : List (Nat × String),
      VerifyCodeService.verifyAll cfg st identifier code_type purpose calls = true := by
  intro calls
  induction calls with
  | nil => rfl
  | cons tc rest ih =>
    obtain ⟨t, c⟩ := tc
    obtain ⟨vd, hget, hu⟩ := h t
    unfold VerifyCodeService.verifyAll
    rw [verify_code_used_rejects cfg st t identifier c code_type purpose vd hget hu]
    simpa using ih

/-- A successful `verify_code` writes the record back marked used with no
store TTL, so it is found used at every later instant. -/
theorem verify_code_true_marks_used (cfg : VcConfig) (st : VcState) (now : Nat)
    (identifier code code_type purpose : String)
    (h : (VerifyCodeService.verify_code cfg st now identifier code code_type purpose).1 = true) :
    ∀ t, ∃ vd,
      (VerifyCodeService.verify_code cfg st now identifier code code_type
        purpose).2.codes.get t (identifier, code_type, purpose) = some vd ∧
      vd.is_used = true := by
  intro t
  cases hget : st.codes.get now (identifier, code_type, purpose) with
  | none => simp [VerifyCodeService.verify_code, hget] at h
  | some vd =>
    by_cases hu : vd.is_used <;> by_cases hx : vd.expires_at < now <;>
      by_cases hm : cfg.maxAttempts < vd.attempts + 1 <;>
      by_cases hc : vd.code = code <;>
      simp [VerifyCodeService.verify_code, hget, hu, hx, hm, hc] at h ⊢

/-- C2: verification codes are strictly single-use: once `verify_code`
returns true for the stored code, every subsequent `verify_code` chain for
the same (identifier, channel, purpose) key — whatever codes it presents,
including the same correct one — returns false, because the record is
marked used and a used record is always rejected. -/
theorem claim_C2_code_single_use (cfg : VcConfig) (st : VcState) (now : Nat)
    (identifier code code_type purpose : String)
    (h : (VerifyCodeService.verify_code cfg st now identifier code code_type purpose).1
      = true) :
    ∀ calls : List (Nat × String),
      VerifyCodeService.verifyAll cfg
        (VerifyCodeService.verify_code cfg st now identifier code code_type purpose).2
        identifier code_type purpose calls = true :=
  verifyAll_of_used cfg _ identifier code_type purpose
    (verify_code_true_marks_used cfg st now identifier code code_type purpose h)

/-- C2 witness: after the concrete pending code `123456` verifies, replaying
the same correct code twice fails both times. -/
theorem claim_C2_code_single_use_witness :
    VerifyCodeService.verifyAll defaultVcConfig
      (VerifyCodeService.verify_code defaultVcConfig c2State 0 "alice@example.com" "123456"
        "email" "verification").2
      "alice@example.com" "email" "verification" [(1, "123456"), (2, "123456")] = true :=
  claim_C2_code_single_use defaultVcConfig c2State 0 "alice@example.com" "123456"
    "email" "verification" (by decide) [(1, "123456"), (2, "123456")]

/-- One `verify_code` step against a record whose attempt counter has
reached the maximum fails and keeps the counter at or above the maximum. -/
theorem verify_code_capped_step (cfg : VcConfig) (st : VcState) (t : Nat)
    (identifier code code_type purpose : String)
    (hcap : ∀ t' vd, st.codes.get t' (identifier, code_type, purpose) = some vd →
      cfg.maxAttempts ≤ vd.attempts) :
    (VerifyCodeService.verify_code cfg st t identifier code code_type purpose).1 = false ∧
    (∀ t' vd,
      (VerifyCodeService.verify_code cfg st t identifier code code_type
        purpose).2.codes.get t' (identifier, code_type, purpose) = some vd →
      cfg.maxAttempts ≤ vd.attempts) := by
  cases hget : st.codes.get t (identifier, code_type, purpose) with
  | none =>
    constructor
    · simp [VerifyCodeService.verify_code, hget]
    · intro t' vd hget'
      have hpost : (VerifyCodeService.verify_code cfg st t identifier code code_type
          purpose).2 = st := by
        simp [VerifyCodeService.verify_code, hget]
      rw [hpost] at hget'
      exact hcap t' vd hget'
  | some vd =>
    have hm : cfg.maxAttempts ≤ vd.attempts := hcap t vd hget
    by_cases hu : vd.is_used
    · constructor
      · simp [VerifyCodeService.verify_code, hget, hu]
      · intro t' vd' hget'
        rw [verify_code_used_rejects cfg st t identifier code code_type purpose vd hget
          (by simpa using hu)] at hget'
        exact hcap t' vd' hget'
    · by_cases hx : vd.expires_at < t
      · constructor
        · simp [VerifyCodeService.verify_code, hget, hu, hx]
        · intro t' vd' hget'
          have hpost : (VerifyCodeService.verify_code cfg st t identifier code code_type
              purpose).2 = st := by
            simp [VerifyCodeService.verify_code, hget, hu, hx]
          rw [hpost] at hget'
          exact hcap t' vd' hget'
      · have hmm : cfg.maxAttempts < vd.attempts + 1 := by omega
        have hpost : (VerifyCodeService.verify_code cfg st t identifier code code_type
            purpose).2.codes = st.codes.set t (identifier, code_type, purpose)
              { vd with attempts := vd.attempts + 1, is_expired := true } none := by
          simp [VerifyCodeService.verify_code, hget, hu, hx, hmm]
        constructor
        · simp [VerifyCodeService.verify_code, hget, hu, hx, hmm]
        · intro t' vd' hget'
          rw [hpost, Store.get_set_self] at hget'
          simp only [Option.some.injEq] at hget'
          rw [← hget']
          simp
          omega

/-- Once the attempt counter of the stored record has reached the maximum,
every chain of `verify_code` calls for the key fails. -/
theorem verifyAll_of_capped (cfg : VcConfig) (st : VcState)
    (identifier code_type purpose : String)
    (hcap : ∀ t' vd, st.codes.get t' (identifier, code_type, purpose) = some vd →
      cfg.maxAttempts ≤ vd.attempts) :
    ∀ calls : List (Nat × String),
      VerifyCodeService.verifyAll cfg st identifier code_type purpose calls = true := by
  intro calls
  induction calls generalizing st with
  | nil => rfl
  | cons tc rest ih =>
    obtain ⟨t, c⟩ := tc
    obtain ⟨h1, h2⟩ := verify_code_capped_step cfg st t identifier c code_type purpose hcap
    unfold VerifyCodeService.verifyAll
    show (!(VerifyCodeService.verify_code cfg st t identifier c code_type purpose).1 &&
      VerifyCodeService.verifyAll cfg
        (VerifyCodeService.verify_code cfg st t identifier c code_type purpose).2
        identifier code_type purpose rest) = true
    rw [h1, ih _ h2]
    rfl

/-- C4: a `verify_code` call on a pending record increments the attempt
counter; when the incremented counter exceeds the maximum the record is
voided (`is_expired` set) and the call fails; once the stored counter has
reached the maximum every later call fails even with the correct code; and
in the concrete scenario with max attempts 5, five wrong guesses followed by
the correct code all return false. -/
theorem claim_C4_attempt_limit (cfg : VcConfig) (st : VcState) (now : Nat)
    (identifier code code_type purpose : String) (vd : VerificationData)
    (h1 : st.codes.get now (identifier, code_type, purpose) = some vd)
    (h2 : vd.is_used = false)
    (h3 : ¬ vd.expires_at < now) :
    (∀ t, ∃ vd',
      (VerifyCodeService.verify_code cfg st now identifier code code_type
        purpose).2.codes.get t (identifier, code_type, purpose) = some vd' ∧
      vd'.attempts = vd.attempts + 1) ∧
    (cfg.maxAttempts < vd.attempts + 1 →
      (VerifyCodeService.verify_code cfg st now identifier code code_type purpose).1
        = false ∧
      ∀ t, ∃ vd',
        (VerifyCodeService.verify_code cfg st now identifier code code_type
          purpose).2.codes.get t (identifier, code_type, purpose) = some vd' ∧
        vd'.is_expired = true) ∧
    (cfg.maxAttempts ≤ vd.attempts →
      ∀ calls : List (Nat × String),
        VerifyCodeService.verifyAll cfg st identifier code_type purpose calls = true) ∧
    VerifyCodeService.verifyAll defaultVcConfig fiveWrongState "13800138000" "sms"
      "verification"
      [(0, "000000"), (1, "000000"), (2, "000000"), (3, "000000"), (4, "000000"),
        (5, "246813")] = true := by
  have hu : ¬ vd.is_used := by simp [h2]
  refine ⟨?_, ?_, ?_, by decide⟩
  · intro t
    by_cases hm : cfg.maxAttempts < vd.attempts + 1
    · have hpost : (VerifyCodeService.verify_code cfg st now identifier code code_type
          purpose).2.codes = st.codes.set now (identifier, code_type, purpose)
            { vd with attempts := vd.attempts + 1, is_expired := true } none := by
        simp [VerifyCodeService.verify_code, h1, hu, h3, hm]
      rw [hpost, Store.get_set_self]
      exact ⟨_, rfl, rfl⟩
    · by_cases hc : vd.code = code
      · have hpost : (VerifyCodeService.verify_code cfg st now identifier code code_type
            purpose).2.codes = st.codes.set now (identifier, code_type, purpose)
              { vd with attempts := vd.attempts + 1, is_used := true } none := by
          simp [VerifyCodeService.verify_code, h1, hu, h3, hm, hc]
        rw [hpost, Store.get_set_self]
        exact ⟨_, rfl, rfl⟩
      · have hpost : (VerifyCodeService.verify_code cfg st now identifier code code_type
            purpose).2.codes = st.codes.set now (identifier, code_type, purpose)
              { vd with attempts := vd.attempts + 1 } none := by
          simp [VerifyCodeService.verify_code, h1, hu, h3, hm, hc]
        rw [hpost, Store.get_set_self]
        exact ⟨_, rfl, rfl⟩
  · intro hm
    have hpost : (VerifyCodeService.verify_code cfg st now identifier code code_type
        purpose).2.codes = st.codes.set now (identifier, code_type, purpose)
          { vd with attempts := vd.attempts + 1, is_expired := true } none := by
      simp [VerifyCodeService.verify_code, h1, hu, h3, hm]
    constructor
    · simp [VerifyCodeService.verify_code, h1, hu, h3, hm]
    · intro t
      rw [hpost, Store.get_set_self]
      exact ⟨_, rfl, rfl⟩
  · intro hm
    refine verifyAll_of_capped cfg st identifier code_type purpose ?_
    intro t' vd' hget'
    have hvv := Store.get_agree st.codes now t' (identifier, code_type, purpose) vd vd' h1 hget'
    rw [← hvv]
    exact hm

/-- C4 witness: the concrete pending record's counter is incremented by a
wrong guess. -/
theorem claim_C4_attempt_limit_witness :
    ∃ vd',
      (VerifyCodeService.verify_code defaultVcConfig fiveWrongState 0 "13800138000" "000000"
        "sms" "verification").2.codes.get 7 ("13800138000", "sms", "verification")
        = some vd' ∧
      vd'.attempts = (fixtureVd "13800138000" "sms" "246813").attempts + 1 :=
  (claim_C4_attempt_limit defaultVcConfig fiveWrongState 0 "13800138000" "000000" "sms"
    "verification" (fixtureVd "13800138000" "sms" "246813") (by decide) rfl
    (by decide)).1 7

/-- A send is rejected while the 60-second counter for the identifier and
channel is live, and the state is left unchanged. -/
theorem send_sms_min_counter_rejects (cfg : VcConfig) (st : VcState) (now : Nat)
    (phone purpose code vid : String) (ip ua : Option String) (smsOk : Bool)
    (h : 1 ≤ (st.rate.get now (phone, "sms", "1min")).getD 0) :
    VerifyCodeService.send_sms_verification_code cfg st now phone purpose code vid ip ua smsOk
      = (false, st) := by
  have hr : VerifyCodeService.check_rate_limit st now phone "sms" = (false, st) := by
    simp only [VerifyCodeService.check_rate_limit]
    rw [if_pos h]
  simp [VerifyCodeService.send_sms_verification_code, hr]

/-- The eleven-send scenario for the hourly limit: sends spaced 300 s apart,
so each is clear of the 60-second window and all fall within one hour. -/
def elevenSends : List (Nat × String × String) :=
  [(0, "c0", "v0"), (300, "c1", "v1"), (600, "c2", "v2"), (900, "c3", "v3"),
   (1200, "c4", "v4"), (1500, "c5", "v5"), (1800, "c6", "v6"), (2100, "c7", "v7"),
   (2400, "c8", "v8"), (2700, "c9", "v9"), (3000, "c10", "v10")]

/-- C7: a verification-code send is rejected while the 60-second counter for
the identifier+channel is live (in particular after any send that passed the
rate check less than 60 s before), or once the rolling one-hour counter has
reached 10 — so in the concrete scenario the 11th send within the hour is
rejected; a send under both limits proceeds and updates both counters with
their window TTLs. -/
theorem claim_C7_send_rate_limited (cfg : VcConfig) (st : VcState) (now : Nat)
    (phone purpose code vid : String) (ip ua : Option String) (smsOk : Bool) :
    (1 ≤ (st.rate.get now (phone, "sms", "1min")).getD 0 →
      VerifyCodeService.send_sms_verification_code cfg st now phone purpose code vid ip ua
        smsOk = (false, st)) ∧
    ((st.rate.get now (phone, "sms", "1min")).getD 0 = 0 →
      10 ≤ (st.rate.get now (phone, "sms", "1hour")).getD 0 →
      VerifyCodeService.send_sms_verification_code cfg st now phone purpose code vid ip ua
        smsOk = (false, st)) ∧
    ((st.rate.get now (phone, "sms", "1min")).getD 0 = 0 →
      (st.rate.get now (phone, "sms", "1hour")).getD 0 < 10 →
      (VerifyCodeService.send_sms_verification_code cfg st now phone purpose code vid ip ua
        smsOk).1 = smsOk ∧
      (VerifyCodeService.send_sms_verification_code cfg st now phone purpose code vid ip ua
        smsOk).2.rate =
        (st.rate.set now (phone, "sms", "1min") 1 (some 60)).set now (phone, "sms", "1hour")
          ((st.rate.get now (phone, "sms", "1hour")).getD 0 + 1) (some 3600) ∧
      (∀ (t' : Nat) (purpose' code' vid' : String) (ip' ua' : Option String) (ok' : Bool),
        t' < now + 60 →
        VerifyCodeService.send_sms_verification_code cfg
          (VerifyCodeService.send_sms_verification_code cfg st now phone purpose code vid ip
            ua smsOk).2 t' phone purpose' code' vid' ip' ua' ok' =
          (false, (VerifyCodeService.send_sms_verification_code cfg st now phone purpose code
            vid ip ua smsOk).2))) ∧
    VerifyCodeService.sendResults defaultVcConfig VcState.empty "13800138000" "verification"
      elevenSends =
      [true, true, true, true, true, true, true, true, true, true, false] := by
  refine ⟨fun h => send_sms_min_counter_rejects cfg st now phone purpose code vid ip ua
    smsOk h, fun h1 h2 => ?_, fun h1 h2 => ?_, by decide⟩
  · have hr : VerifyCodeService.check_rate_limit st now phone "sms" = (false, st) := by
      simp only [VerifyCodeService.check_rate_limit]
      rw [if_neg (by omega), if_pos h2]
    simp [VerifyCodeService.send_sms_verification_code, hr]
  · have hr : VerifyCodeService.check_rate_limit st now phone "sms" =
        (true, { st with
          rate := (st.rate.set now (phone, "sms", "1min") 1 (some 60)).set now
            (phone, "sms", "1hour")
            ((st.rate.get now (phone, "sms", "1hour")).getD 0 + 1) (some 3600) }) := by
      simp only [VerifyCodeService.check_rate_limit]
      rw [if_neg (by omega), if_neg (by omega)]
    have hrate : (VerifyCodeService.send_sms_verification_code cfg st now phone purpose code
        vid ip ua smsOk).2.rate =
        (st.rate.set now (phone, "sms", "1min") 1 (some 60)).set now (phone, "sms", "1hour")
          ((st.rate.get now (phone, "sms", "1hour")).getD 0 + 1) (some 3600) := by
      cases smsOk <;>
        simp [VerifyCodeService.send_sms_verification_code, hr,
          VerifyCodeService.create_verification_data,
          VerifyCodeService.invalidate_previous_codes]
    refine ⟨?_, hrate, ?_⟩
    · cases smsOk <;>
        simp [VerifyCodeService.send_sms_verification_code, hr,
          VerifyCodeService.create_verification_data,
          VerifyCodeService.invalidate_previous_codes]
    · intro t' purpose' code' vid' ip' ua' ok' h60
      apply send_sms_min_counter_rejects
      rw [hrate]
      rw [Store.get_set_ne _ _ _ _ _ _ _ (by simp), Store.get_set_self]
      simp [h60]

/-- After a passed rate check, a record whose stored code differs from the
presented one can never verify. -/
theorem verify_code_false_of_stored_ne (cfg : VcConfig) (st : VcState) (t : Nat)
    (identifier code code_type purpose : String)
    (h : ∀ vd, st.codes.get t (identifier, code_type, purpose) = some vd →
      ¬ vd.code = code) :
    (VerifyCodeService.verify_code cfg st t identifier code code_type purpose).1 = false := by
  cases hget : st.codes.get t (identifier, code_type, purpose) with
  | none => simp [VerifyCodeService.verify_code, hget]
  | some vd =>
    have hc := h vd hget
    by_cases hu : vd.is_used <;> by_cases hx : vd.expires_at < t <;>
      by_cases hm : cfg.maxAttempts < vd.attempts + 1 <;>
      simp [VerifyCodeService.verify_code, hget, hu, hx, hm, hc]

/-- The record `_create_verification_data` stores for its arguments (the
structure literal of verify_code_service.py lines 49-62). -/
def freshRecord (cfg : VcConfig) (now : Nat)
    (identifier code code_type purpose vid : String) (ip ua : Option String) :
    VerificationData :=
  { id := vid, identifier := identifier, code := code, code_type := code_type
    purpose := purpose, created_at := now
    expires_at := now + cfg.expireMinutes * 60
    ip_address := ip, user_agent := ua
    attempts := 0, is_used := false, is_expired := false }

/-- C8: a second successful send for the same (identifier, channel, purpose)
key deletes and supersedes the first pending code: the stored record carries
the new code, and a `verify_code` call presenting the first (different) code
returns false at every instant. -/
theorem claim_C8_second_send_supersedes (cfg : VcConfig) (st : VcState) (now : Nat)
    (phone purpose code2 vid : String) (ip ua : Option String) (vd : VerificationData)
    (hprev : st.codes.get now (phone, "sms", purpose) = some vd)
    (hsent : (VerifyCodeService.send_sms_verification_code cfg st now phone purpose code2 vid
      ip ua true).1 = true)
    (hne : ¬ vd.code = code2) :
    (∃ vd',
      (VerifyCodeService.send_sms_verification_code cfg st now phone purpose code2 vid ip ua
        true).2.codes.get now (phone, "sms", purpose) = some vd' ∧ vd'.code = code2) ∧
    ∀ t, (VerifyCodeService.verify_code cfg
      (VerifyCodeService.send_sms_verification_code cfg st now phone purpose code2 vid ip ua
        true).2 t phone vd.code "sms" purpose).1 = false := by
  cases hr : VerifyCodeService.check_rate_limit st now phone "sms" with
  | mk ok st1 =>
    cases ok with
    | false =>
      exfalso
      simp [VerifyCodeService.send_sms_verification_code, hr] at hsent
    | true =>
      have hpost : (VerifyCodeService.send_sms_verification_code cfg st now phone purpose
          code2 vid ip ua true).2.codes =
          (st1.codes.delete (phone, "sms", purpose)).set now (phone, "sms", purpose)
            (freshRecord cfg now phone code2 "sms" purpose vid ip ua)
            (some (cfg.expireMinutes * 60 + 300)) := by
        simp [VerifyCodeService.send_sms_verification_code, hr,
          VerifyCodeService.create_verification_data,
          VerifyCodeService.invalidate_previous_codes, freshRecord]
      constructor
      · have hlt : now < now + (cfg.expireMinutes * 60 + 300) := by omega
        refine ⟨freshRecord cfg now phone code2 "sms" purpose vid ip ua, ?_, rfl⟩
        rw [hpost, Store.get_set_self]
        simp [hlt]
      · intro t
        apply verify_code_false_of_stored_ne
        intro vd' hget'
        rw [hpost, Store.get_set_self] at hget'
        by_cases hlt : t < now + (cfg.expireMinutes * 60 + 300)
        · simp only [hlt, if_true] at hget'
          simp only [Option.some.injEq] at hget'
          rw [← hget']
          exact fun he => hne he.symm
        · simp [hlt] at hget'

/-- C8 witness: after a second send carrying code `222222`, the stored
record holds the new code and the first code `111111` no longer verifies. -/
theorem claim_C8_second_send_supersedes_witness :
    (∃ vd',
      (VerifyCodeService.send_sms_verification_code defaultVcConfig c8State 0 "13800138000"
        "verification" "222222" "v2" none none true).2.codes.get 0
        ("13800138000", "sms", "verification") = some vd' ∧ vd'.code = "222222") ∧
    (VerifyCodeService.verify_code defaultVcConfig
      (VerifyCodeService.send_sms_verification_code defaultVcConfig c8State 0 "13800138000"
        "verification" "222222" "v2" none none true).2 50 "13800138000"
      (fixtureVd "13800138000" "sms" "111111").code "sms" "verification").1 = false := by
  have h := claim_C8_second_send_supersedes defaultVcConfig c8State 0 "13800138000"
    "verification" "222222" "v2" none none (fixtureVd "13800138000" "sms" "111111")
    (by decide) (by decide) (by decide)
  exact ⟨h.1, h.2 50⟩

/-- A login request carrying two identifiers at once. -/
def loginBoth : PasswordLogin :=
  { user_name := some "alice", email := some "bob@example.com", phone := none
    password := "pw" }

/-- C6 counterexample: a password-login request supplying both a username
and an email is not rejected with a 400 client error; it is processed
against the username and succeeds. -/
theorem claim_C6_multiple_identifiers_counterexample :
    truthy loginBoth.user_name = true ∧ truthy loginBoth.email = true ∧
    AuthService.login_with_password defaultSettings db0 roles0 0 loginBoth
      = .ok (AuthService.create_login_response defaultSettings roles0 0 alice) := by
  exact ⟨rfl, rfl, rfl⟩

/-- C6 amended: a password-login request supplying none of
username/email/phone is rejected with a 400 client error; a request
supplying more than one identifier is not rejected but processed against
the first present one in the priority order username, then email, then
phone, the others being ignored. -/
theorem claim_C6_login_identifier_priority (cfg : Settings) (db : List User)
    (roles : String → List String) (now : Nat) (auth : PasswordLogin) :
    (truthy auth.user_name = false → truthy auth.email = false →
      truthy auth.phone = false →
      AuthService.login_with_password cfg db roles now auth = .error 400) ∧
    (truthy auth.user_name = true →
      AuthService.login_with_password cfg db roles now auth =
        AuthService.login_with_password cfg db roles now
          { auth with email := none, phone := none }) ∧
    (truthy auth.user_name = false → truthy auth.email = true →
      AuthService.login_with_password cfg db roles now auth =
        AuthService.login_with_password cfg db roles now { auth with phone := none }) := by
  refine ⟨fun h1 h2 h3 => ?_, fun h1 => ?_, fun h1 h2 => ?_⟩
  · simp [AuthService.login_with_password, h1, h2, h3]
  · simp [AuthService.login_with_password, h1]
  · simp [AuthService.login_with_password, h1, h2]

/-- C6 amended witness: the all-empty request is rejected with 400, and the
concrete two-identifier request equals its username-only restriction. -/
theorem claim_C6_login_identifier_priority_witness :
    AuthService.login_with_password defaultSettings db0 roles0 0
      { user_name := none, email := none, phone := none, password := "pw" } = .error 400 ∧
    AuthService.login_with_password defaultSettings db0 roles0 0 loginBoth =
      AuthService.login_with_password defaultSettings db0 roles0 0
        { loginBoth with email := none, phone := none } :=
  ⟨(claim_C6_login_identifier_priority defaultSettings db0 roles0 0
      { user_name := none, email := none, phone := none, password := "pw" }).1 rfl rfl rfl,
   (claim_C6_login_identifier_priority defaultSettings db0 roles0 0 loginBoth).2.1 rfl⟩

end Moling
